import Mathlib

/-!
Verification of the Nifty 50 expiry range calculator
(src/nifty_calculator.py).

The calculator reads a spot price, an implied-volatility percentage and a
number of days to expiry.  When the day count is positive it computes a
one-standard-deviation point move
  sd_1_points = spot_price * (iv / 100) * sqrt (dte / 365)
and three bands at spot ± m * sd_1_points for m = 1, 2, 3; otherwise it
shows a warning and computes nothing.  We embed the calculation block
(lines 49-63 of the script) as a function from the three inputs to an
optional record of results, with real-number arithmetic standing for the
script's floating point.
-/

namespace NiftyCalculator

/-- The set of values the calculation block of the script produces when the
day-count guard passes: the spot price for reference, the three standard
deviation point moves, and the upper and lower boundary of each band,
named after the script's variables. -/
structure Bands where
  spot_price : ℝ
  sd_1_points : ℝ
  upper_1sd : ℝ
  lower_1sd : ℝ
  sd_2_points : ℝ
  upper_2sd : ℝ
  lower_2sd : ℝ
  sd_3_points : ℝ
  upper_3sd : ℝ
  lower_3sd : ℝ

/-- Line 51 of the script:
`sd_1_points = spot_price * (iv / 100) * np.sqrt(dte / 365)`. -/
noncomputable def sd_1_points (spot_price iv : ℝ) (dte : ℤ) : ℝ :=
  spot_price * (iv / 100) * Real.sqrt ((dte : ℝ) / 365)

/-- The calculation block, lines 49-63 of the script.  The guard
`if dte > 0:` decides whether any result is produced (line 109 only shows
a warning, which we model as `none`).  Inside the guard:
`sd_2_points = sd_1_points * 2`, `sd_3_points = sd_1_points * 3`, and each
band boundary is the spot price plus or minus the corresponding move. -/
noncomputable def computeBands (spot_price iv : ℝ) (dte : ℤ) : Option Bands :=
  if dte > 0 then
    let sd_1 := sd_1_points spot_price iv dte
    let sd_2 := sd_1 * 2
    let sd_3 := sd_1 * 3
    some { spot_price := spot_price
           sd_1_points := sd_1
           upper_1sd := spot_price + sd_1
           lower_1sd := spot_price - sd_1
           sd_2_points := sd_2
           upper_2sd := spot_price + sd_2
           lower_2sd := spot_price - sd_2
           sd_3_points := sd_3
           upper_3sd := spot_price + sd_3
           lower_3sd := spot_price - sd_3 }
  else
    none

/-- C1: for every valid input (spot > 0, iv in (0,100], dte > 0) the
one-standard-deviation point move computed by the program equals
spot * (iv/100) * sqrt(dte/365). -/
theorem point_move_eq_formula (spot iv : ℝ) (dte : ℤ)
    (hspot : 0 < spot) (hiv0 : 0 < iv) (hiv1 : iv ≤ 100) (hdte : 0 < dte) :
    ∃ b : Bands, computeBands spot iv dte = some b ∧
      b.sd_1_points = spot * (iv / 100) * Real.sqrt ((dte : ℝ) / 365) := by
  unfold computeBands
  rw [if_pos hdte]
  exact ⟨_, rfl, rfl⟩

/-- Witness for C1 at the script's default inputs spot = 24000, iv = 12.5,
dte = 7. -/
theorem point_move_eq_formula_witness :
    ∃ b : Bands, computeBands 24000 12.5 7 = some b ∧
      b.sd_1_points = 24000 * (12.5 / 100) * Real.sqrt (((7 : ℤ) : ℝ) / 365) :=
  point_move_eq_formula 24000 12.5 7 (by norm_num) (by norm_num)
    (by norm_num) (by norm_num)

/-- When the guard passes, the calculation block produces exactly this
record. -/
lemma computeBands_eq_some (spot iv : ℝ) (dte : ℤ) (h : 0 < dte) :
    computeBands spot iv dte = some
      { spot_price := spot
        sd_1_points := sd_1_points spot iv dte
        upper_1sd := spot + sd_1_points spot iv dte
        lower_1sd := spot - sd_1_points spot iv dte
        sd_2_points := sd_1_points spot iv dte * 2
        upper_2sd := spot + sd_1_points spot iv dte * 2
        lower_2sd := spot - sd_1_points spot iv dte * 2
        sd_3_points := sd_1_points spot iv dte * 3
        upper_3sd := spot + sd_1_points spot iv dte * 3
        lower_3sd := spot - sd_1_points spot iv dte * 3 } := by
  unfold computeBands
  rw [if_pos h]

/-- The point move is nonnegative whenever the spot price and the IV
percentage are. -/
lemma sd_1_points_nonneg (spot iv : ℝ) (dte : ℤ)
    (h1 : 0 ≤ spot) (h2 : 0 ≤ iv) : 0 ≤ sd_1_points spot iv dte :=
  mul_nonneg (mul_nonneg h1 (div_nonneg h2 (by norm_num)))
    (Real.sqrt_nonneg _)

/-- C2: for every valid input and each multiplier m in \x7b1,2,3\x7d the
band boundaries are upper_m = spot + m * point_move and
lower_m = spot - m * point_move, and all three pairs, the point move and
the spot are produced. -/
theorem bands_boundaries (spot iv : ℝ) (dte : ℤ)
    (hspot : 0 < spot) (hiv0 : 0 < iv) (hiv1 : iv ≤ 100) (hdte : 0 < dte) :
    ∃ b : Bands, computeBands spot iv dte = some b ∧
      b.spot_price = spot ∧
      b.upper_1sd = spot + 1 * b.sd_1_points ∧
      b.lower_1sd = spot - 1 * b.sd_1_points ∧
      b.upper_2sd = spot + 2 * b.sd_1_points ∧
      b.lower_2sd = spot - 2 * b.sd_1_points ∧
      b.upper_3sd = spot + 3 * b.sd_1_points ∧
      b.lower_3sd = spot - 3 * b.sd_1_points := by
  refine ⟨_, computeBands_eq_some spot iv dte hdte, rfl, ?_, ?_, ?_, ?_, ?_, ?_⟩
  all_goals simp only []; ring

/-- Witness for C2 at spot = 24000, iv = 12.5, dte = 7. -/
theorem bands_boundaries_witness :
    ∃ b : Bands, computeBands 24000 12.5 7 = some b ∧
      b.spot_price = 24000 ∧
      b.upper_1sd = 24000 + 1 * b.sd_1_points ∧
      b.lower_1sd = 24000 - 1 * b.sd_1_points ∧
      b.upper_2sd = 24000 + 2 * b.sd_1_points ∧
      b.lower_2sd = 24000 - 2 * b.sd_1_points ∧
      b.upper_3sd = 24000 + 3 * b.sd_1_points ∧
      b.lower_3sd = 24000 - 3 * b.sd_1_points :=
  bands_boundaries 24000 12.5 7 (by norm_num) (by norm_num) (by norm_num)
    (by norm_num)

/-- C3: the computation produces no bands (the warning branch) exactly when
dte ≤ 0, and produces the bands for every dte > 0. -/
theorem guard_none_iff (spot iv : ℝ) (dte : ℤ) :
    (computeBands spot iv dte = none ↔ dte ≤ 0) ∧
    (0 < dte → ∃ b, computeBands spot iv dte = some b) := by
  constructor
  · unfold computeBands
    split
    · simp only [reduceCtorEq, false_iff]
      omega
    · simp only [true_iff]
      omega
  · intro h
    exact ⟨_, computeBands_eq_some spot iv dte h⟩

/-- Witness for C3 at dte = 0 (failing) and via the theorem statement at
dte = 7 (succeeding). -/
theorem guard_none_iff_witness :
    (computeBands 24000 12.5 0 = none ↔ (0 : ℤ) ≤ 0) ∧
    ((0 : ℤ) < 0 → ∃ b, computeBands 24000 12.5 0 = some b) :=
  guard_none_iff 24000 12.5 0

/-- C4: for every valid input the boundaries are ordered
lower_3 ≤ lower_2 ≤ lower_1 ≤ spot ≤ upper_1 ≤ upper_2 ≤ upper_3. -/
theorem bands_ordered (spot iv : ℝ) (dte : ℤ)
    (hspot : 0 < spot) (hiv0 : 0 < iv) (hiv1 : iv ≤ 100) (hdte : 0 < dte) :
    ∃ b : Bands, computeBands spot iv dte = some b ∧
      b.lower_3sd ≤ b.lower_2sd ∧ b.lower_2sd ≤ b.lower_1sd ∧
      b.lower_1sd ≤ spot ∧ spot ≤ b.upper_1sd ∧
      b.upper_1sd ≤ b.upper_2sd ∧ b.upper_2sd ≤ b.upper_3sd := by
  have hpm : 0 ≤ sd_1_points spot iv dte :=
    sd_1_points_nonneg spot iv dte hspot.le hiv0.le
  refine ⟨_, computeBands_eq_some spot iv dte hdte, ?_, ?_, ?_, ?_, ?_, ?_⟩
  all_goals simp only []; linarith

/-- Witness for C4 at spot = 24000, iv = 12.5, dte = 7. -/
theorem bands_ordered_witness :
    ∃ b : Bands, computeBands 24000 12.5 7 = some b ∧
      b.lower_3sd ≤ b.lower_2sd ∧ b.lower_2sd ≤ b.lower_1sd ∧
      b.lower_1sd ≤ 24000 ∧ (24000 : ℝ) ≤ b.upper_1sd ∧
      b.upper_1sd ≤ b.upper_2sd ∧ b.upper_2sd ≤ b.upper_3sd :=
  bands_ordered 24000 12.5 7 (by norm_num) (by norm_num) (by norm_num)
    (by norm_num)

/-- C5: for every valid input the upper boundaries are equally spaced by
the point move: upper_3 - upper_2 = upper_2 - upper_1 = point_move. -/
theorem upper_bands_equally_spaced (spot iv : ℝ) (dte : ℤ)
    (hspot : 0 < spot) (hiv0 : 0 < iv) (hiv1 : iv ≤ 100) (hdte : 0 < dte) :
    ∃ b : Bands, computeBands spot iv dte = some b ∧
      b.upper_3sd - b.upper_2sd = b.sd_1_points ∧
      b.upper_2sd - b.upper_1sd = b.sd_1_points := by
  refine ⟨_, computeBands_eq_some spot iv dte hdte, ?_, ?_⟩
  all_goals simp only []; ring

/-- Witness for C5 at spot = 24000, iv = 12.5, dte = 7. -/
theorem upper_bands_equally_spaced_witness :
    ∃ b : Bands, computeBands 24000 12.5 7 = some b ∧
      b.upper_3sd - b.upper_2sd = b.sd_1_points ∧
      b.upper_2sd - b.upper_1sd = b.sd_1_points :=
  upper_bands_equally_spaced 24000 12.5 7 (by norm_num) (by norm_num)
    (by norm_num) (by norm_num)

/-- C6: for every valid input each band is symmetric around the spot price:
(upper_m + lower_m) / 2 = spot for m = 1, 2, 3. -/
theorem bands_symmetric (spot iv : ℝ) (dte : ℤ)
    (hspot : 0 < spot) (hiv0 : 0 < iv) (hiv1 : iv ≤ 100) (hdte : 0 < dte) :
    ∃ b : Bands, computeBands spot iv dte = some b ∧
      (b.upper_1sd + b.lower_1sd) / 2 = spot ∧
      (b.upper_2sd + b.lower_2sd) / 2 = spot ∧
      (b.upper_3sd + b.lower_3sd) / 2 = spot := by
  refine ⟨_, computeBands_eq_some spot iv dte hdte, ?_, ?_, ?_⟩
  all_goals simp only []; ring

/-- Witness for C6 at spot = 24000, iv = 12.5, dte = 7. -/
theorem bands_symmetric_witness :
    ∃ b : Bands, computeBands 24000 12.5 7 = some b ∧
      (b.upper_1sd + b.lower_1sd) / 2 = 24000 ∧
      (b.upper_2sd + b.lower_2sd) / 2 = 24000 ∧
      (b.upper_3sd + b.lower_3sd) / 2 = 24000 :=
  bands_symmetric 24000 12.5 7 (by norm_num) (by norm_num) (by norm_num)
    (by norm_num)

/-- C7: for every valid input, doubling the IV doubles the point move; the
point move is linear in the IV, and it is a fixed coefficient times
sqrt(dte/365), hence linear in sqrt(dte). -/
theorem point_move_linear (spot iv : ℝ) (dte : ℤ)
    (hspot : 0 < spot) (hiv0 : 0 < iv) (hiv1 : iv ≤ 100) (hdte : 0 < dte) :
    sd_1_points spot (2 * iv) dte = 2 * sd_1_points spot iv dte ∧
    (∀ c : ℝ, sd_1_points spot (c * iv) dte = c * sd_1_points spot iv dte) ∧
    (∀ d : ℤ, sd_1_points spot iv d =
      spot * (iv / 100) * Real.sqrt ((d : ℝ) / 365)) := by
  refine ⟨?_, fun c => ?_, fun d => rfl⟩
  · unfold sd_1_points; ring
  · unfold sd_1_points; ring

/-- Witness for C7 at spot = 24000, iv = 12.5, dte = 7. -/
theorem point_move_linear_witness :
    sd_1_points 24000 (2 * 12.5) 7 = 2 * sd_1_points 24000 12.5 7 ∧
    (∀ c : ℝ, sd_1_points 24000 (c * 12.5) 7 =
      c * sd_1_points 24000 12.5 7) ∧
    (∀ d : ℤ, sd_1_points 24000 12.5 d =
      24000 * (12.5 / 100) * Real.sqrt ((d : ℝ) / 365)) :=
  point_move_linear 24000 12.5 7 (by norm_num) (by norm_num) (by norm_num)
    (by norm_num)

/-- C9: the computation is a pure function of its inputs (two runs on the
same inputs agree on every produced value), is total whenever dte > 0, and
produces nothing exactly when the guard fires. -/
theorem compute_deterministic_total (spot iv : ℝ) (dte : ℤ) :
    (∀ b1 b2 : Bands, computeBands spot iv dte = some b1 →
      computeBands spot iv dte = some b2 → b1 = b2) ∧
    (0 < dte → ∃ b, computeBands spot iv dte = some b) ∧
    (dte ≤ 0 → computeBands spot iv dte = none) := by
  refine ⟨?_, ?_, ?_⟩
  · intro b1 b2 h1 h2
    rw [h1] at h2
    exact Option.some_injective _ h2
  · intro h
    exact ⟨_, computeBands_eq_some spot iv dte h⟩
  · intro h
    unfold computeBands
    rw [if_neg (by omega)]

/-- Witness for C9 at spot = 24000, iv = 12.5, dte = 7. -/
theorem compute_deterministic_total_witness :
    (∀ b1 b2 : Bands, computeBands 24000 12.5 7 = some b1 →
      computeBands 24000 12.5 7 = some b2 → b1 = b2) ∧
    ((0 : ℤ) < 7 → ∃ b, computeBands 24000 12.5 7 = some b) ∧
    ((7 : ℤ) ≤ 0 → computeBands 24000 12.5 7 = none) :=
  compute_deterministic_total 24000 12.5 7

/-- C10: the lower boundaries are not clamped at zero.  At the in-range
input spot = 10000, iv = 100, dte = 365 (the script allows spot ≥ 10000,
iv ≤ 100, any positive dte) the reported lower_2sd and lower_3sd are
strictly negative and lower_1sd is exactly zero. -/
theorem lower_bands_can_be_negative :
    ∃ b : Bands, computeBands 10000 100 365 = some b ∧
      b.lower_1sd = 0 ∧ b.lower_2sd < 0 ∧ b.lower_3sd < 0 := by
  have hpm : sd_1_points 10000 100 365 = 10000 := by
    unfold sd_1_points
    norm_num [Real.sqrt_one]
  refine ⟨_, computeBands_eq_some 10000 100 365 (by norm_num), ?_, ?_, ?_⟩
  all_goals simp only [hpm]; norm_num

/-- Rational bounds on sqrt(7/365): 0.1384 < sqrt(7/365) < 0.1385. -/
lemma sqrt_7_div_365_bounds :
    (0.1384 : ℝ) < Real.sqrt (7 / 365) ∧ Real.sqrt ((7 : ℝ) / 365) < 0.1385 := by
  constructor
  · rw [show (0.1384 : ℝ) < Real.sqrt (7 / 365) ↔
        (0.1384 : ℝ) ^ 2 < 7 / 365 from Real.lt_sqrt (by norm_num)]
    norm_num
  · rw [Real.sqrt_lt' (by norm_num)]
    norm_num

/-- Bounds on the point move at the script's default inputs spot = 24000,
iv = 12.5, dte = 7: it lies strictly between 415.2 and 415.5. -/
lemma sd_1_points_default_bounds :
    (415.2 : ℝ) < sd_1_points 24000 12.5 7 ∧
    sd_1_points 24000 12.5 7 < 415.5 := by
  have hc : sd_1_points 24000 12.5 7 = 3000 * Real.sqrt ((7 : ℝ) / 365) := by
    unfold sd_1_points
    norm_num
  obtain ⟨h1, h2⟩ := sqrt_7_div_365_bounds
  constructor <;> rw [hc] <;> nlinarith

/-- C8 counterexample: at spot = 24000, iv = 12.5, dte = 7 the computed
point move is below 416, more than 627 points away from the 1043.07 the
spec states, and the 1 SD boundaries are more than 627 points away from
the stated 25043 and 22957. -/
theorem spec_numeric_example_false :
    sd_1_points 24000 12.5 7 < 416 ∧
    |sd_1_points 24000 12.5 7 - 1043.07| > 627 ∧
    ∃ b : Bands, computeBands 24000 12.5 7 = some b ∧
      |b.upper_1sd - 25043| > 627 ∧ |b.lower_1sd - 22957| > 627 := by
  obtain ⟨hlo, hhi⟩ := sd_1_points_default_bounds
  refine ⟨by linarith, ?_, _, computeBands_eq_some 24000 12.5 7 (by norm_num),
    ?_, ?_⟩
  · rw [abs_of_neg (by linarith)]
    linarith
  · simp only []
    rw [abs_of_neg (by linarith)]
    linarith
  · simp only []
    rw [abs_of_pos (by linarith)]
    linarith

/-- C8 amended: at spot = 24000, iv = 12.5, dte = 7 the point move equals
24000 × 0.125 × sqrt(7/365) ≈ 415.46 (strictly between 415 and 416), with
upper_1 ≈ 24415.46 and lower_1 ≈ 23584.54. -/
theorem spec_numeric_example_amended :
    ∃ b : Bands, computeBands 24000 12.5 7 = some b ∧
      b.sd_1_points = 24000 * (12.5 / 100) * Real.sqrt (((7 : ℤ) : ℝ) / 365) ∧
      415 < b.sd_1_points ∧ b.sd_1_points < 416 ∧
      24415 < b.upper_1sd ∧ b.upper_1sd < 24416 ∧
      23584 < b.lower_1sd ∧ b.lower_1sd < 23585 := by
  obtain ⟨hlo, hhi⟩ := sd_1_points_default_bounds
  refine ⟨_, computeBands_eq_some 24000 12.5 7 (by norm_num),
    rfl, ?_, ?_, ?_, ?_, ?_, ?_⟩
  all_goals simp only []; linarith

end NiftyCalculator
